import Mathlib

/-!
Verification development for the jupiter-swap-api-client library.

The library (src/jupiter-swap-api-client/src/lib.rs) is a thin HTTP client
with three operations (quote, swap, swap_instructions), a shared
status-check-then-deserialize pipeline, and an internal-to-public response
conversion for swap_instructions.

Shallow embedding choices:
- An HTTP response is captured as its status code plus its raw body bytes
  (modelled as a String).
- The fallible effects are oracles passed explicitly: `send` (the transport
  round trip, a function of the stored client handle and the built request),
  `text` (reading the body as text, a function of the body bytes) and
  `json` (parsing the body as the expected shape, a function of the body
  bytes).  In the real system each of these is a deterministic function of
  exactly those inputs.
- Errors form a three-constructor inductive mirroring the three error
  construction sites in the source: the `?` on `send` (transport), the
  `anyhow!` in `check_is_success` (status, carrying the code and the
  best-effort body-text read result), and the `map_err(Into::into)` on
  `json` (decode).
- The payload types (QuoteRequest, QuoteResponse, SwapRequest, SwapResponse)
  are opaque serializable structures, as the spec treats them; their
  serializers are oracle parameters.
-/

namespace JupSwap

/-- An opaque reusable HTTP transport handle (`reqwest::Client`). -/
structure HttpClient where
  id : Nat
deriving DecidableEq, Repr

/-- A fresh transport handle with default settings (`Client::new()`). -/
def HttpClient.new : HttpClient := HttpClient.mk 0

/-- A captured HTTP response: its status code and raw body bytes. -/
structure Response where
  status : Nat
  body : String
deriving DecidableEq, Repr

/-- reqwest `StatusCode::is_success`: the 2xx range. -/
def statusIsSuccess (code : Nat) : Bool :=
  decide (200 ≤ code) && decide (code < 300)

deriving instance DecidableEq for Except

/-- The three kinds of error value the library constructs: the transport
failure propagated by `?` on `send`, the status failure built by `anyhow!`
in `check_is_success` (carrying the numeric code and the result of the
best-effort body-text read), and the decode failure from `json::<T>()`. -/
inductive JupError where
  | transport (msg : String)
  | status (code : Nat) (bodyText : Except String String)
  | decode (msg : String)
deriving DecidableEq, Repr

/-- HTTP method of a built request. -/
inductive Method where
  | get
  | post
deriving DecidableEq, Repr

/-- A request as built by the client before it is handed to the transport:
method, full URL, optional serialized query string, optional JSON body. -/
structure BuiltRequest where
  method : Method
  url : String
  queryParams : Option String
  jsonBody : Option String
deriving DecidableEq, Repr

/-- Opaque quote request parameters, serializable to a query string. -/
structure QuoteRequest where
  raw : String
deriving DecidableEq, Repr

/-- Opaque quote response payload. -/
structure QuoteResponse where
  raw : String
deriving DecidableEq, Repr

/-- Opaque swap request parameters, serializable to a JSON object. -/
structure SwapRequest where
  raw : String
deriving DecidableEq, Repr

/-- Opaque swap response payload. -/
structure SwapResponse where
  raw : String
deriving DecidableEq, Repr

/-- Modelled from the spec: a single instruction payload inside the
swap-instructions response.  The `swap` module defining the concrete wire
types is not among the sources; the spec describes the payload as route and
instruction data. -/
structure Instruction where
  program_id : String
  accounts : List String
  data : List Nat
deriving DecidableEq, Repr

/-- Modelled from the spec: the literal wire shape of the swap-instructions
response, "a route plan embedded with extra metadata fields" — the ordered
instruction sequence, the route plan, and pure metadata that the public
shape intentionally drops. -/
structure SwapInstructionsResponseInternal where
  instructions : List Instruction
  route_plan : List String
  metadata : String
deriving DecidableEq, Repr

/-- Modelled from the spec: the client-facing swap-instructions shape,
holding the route and instruction data without the wire metadata. -/
structure SwapInstructionsResponse where
  instructions : List Instruction
  route_plan : List String
deriving DecidableEq, Repr

/-- Modelled from the spec: the lossless one-way internal-to-public
conversion (`Into::into`): every route/instruction field maps to exactly one
public field; the metadata field is intentionally dropped. -/
def SwapInstructionsResponseInternal.into
    (i : SwapInstructionsResponseInternal) : SwapInstructionsResponse :=
  { instructions := i.instructions, route_plan := i.route_plan }

/-- The client: stored transport handle and base endpoint path. -/
structure JupiterSwapApiClient where
  client : HttpClient
  base_path : String
deriving DecidableEq, Repr

/-- The hardcoded canonical base path. -/
def BASE_PATH : String := "https://quote-api.jup.ag/v6"

/-- `Default::default()`: canonical base path, fresh default handle. -/
def JupiterSwapApiClient.default : JupiterSwapApiClient :=
  { client := HttpClient.new, base_path := BASE_PATH }

/-- `JupiterSwapApiClient::new`: stores the arguments, no validation. -/
def JupiterSwapApiClient.new (base_path : String) (client : HttpClient) :
    JupiterSwapApiClient :=
  { base_path := base_path, client := client }

/-- `check_is_success`: if the status is not 2xx, fail with a status error
carrying the code and the best-effort body-text read result (the read
outcome, success or failure, is embedded in the error, never escalated);
otherwise pass the response through. -/
def check_is_success (text : String → Except String String)
    (response : Response) : Except JupError Response :=
  if statusIsSuccess response.status then Except.ok response
  else Except.error (JupError.status response.status (text response.body))

/-- `check_status_code_and_deserialize`: run `check_is_success`, then on the
passed-through response parse the body as `T`; a parse failure becomes a
decode error. -/
def check_status_code_and_deserialize {T : Type}
    (text : String → Except String String)
    (json : String → Except String T)
    (response : Response) : Except JupError T :=
  match check_is_success text response with
  | Except.error e => Except.error e
  | Except.ok r =>
      match json r.body with
      | Except.ok v => Except.ok v
      | Except.error m => Except.error (JupError.decode m)

/-- `quote`: GET to `{base_path}/quote` with the request as query
parameters and no JSON body; transport failure is propagated by `?`; then
the shared pipeline. -/
def JupiterSwapApiClient.quote (self : JupiterSwapApiClient)
    (serQuery : QuoteRequest → String)
    (send : HttpClient → BuiltRequest → Except String Response)
    (text : String → Except String String)
    (json : String → Except String QuoteResponse)
    (quote_request : QuoteRequest) : Except JupError QuoteResponse :=
  match send self.client
      (BuiltRequest.mk Method.get (self.base_path ++ "/quote")
        (some (serQuery quote_request)) none) with
  | Except.error m => Except.error (JupError.transport m)
  | Except.ok response => check_status_code_and_deserialize text json response

/-- `swap`: POST to `{base_path}/swap` with the request as JSON body; then
the shared pipeline, the decoded value returned unchanged. -/
def JupiterSwapApiClient.swap (self : JupiterSwapApiClient)
    (serJson : SwapRequest → String)
    (send : HttpClient → BuiltRequest → Except String Response)
    (text : String → Except String String)
    (json : String → Except String SwapResponse)
    (swap_request : SwapRequest) : Except JupError SwapResponse :=
  match send self.client
      (BuiltRequest.mk Method.post (self.base_path ++ "/swap")
        none (some (serJson swap_request))) with
  | Except.error m => Except.error (JupError.transport m)
  | Except.ok response => check_status_code_and_deserialize text json response

/-- `swap_instructions`: POST to `{base_path}/swap-instructions` with the
request as JSON body; the shared pipeline parses the body as the internal
shape and the result is mapped through the internal-to-public conversion. -/
def JupiterSwapApiClient.swap_instructions (self : JupiterSwapApiClient)
    (serJson : SwapRequest → String)
    (send : HttpClient → BuiltRequest → Except String Response)
    (text : String → Except String String)
    (json : String → Except String SwapInstructionsResponseInternal)
    (swap_request : SwapRequest) : Except JupError SwapInstructionsResponse :=
  match send self.client
      (BuiltRequest.mk Method.post (self.base_path ++ "/swap-instructions")
        none (some (serJson swap_request))) with
  | Except.error m => Except.error (JupError.transport m)
  | Except.ok response =>
      (check_status_code_and_deserialize text json response).map
        SwapInstructionsResponseInternal.into

/-- State-passing form of `quote` for the `&self` receiver: the call
returns its result together with the client state after the call.  A `&self`
method cannot mutate the client, so the state after the call is the state
that was read throughout the call. -/
def JupiterSwapApiClient.quoteCall (self : JupiterSwapApiClient)
    (serQuery : QuoteRequest → String)
    (send : HttpClient → BuiltRequest → Except String Response)
    (text : String → Except String String)
    (json : String → Except String QuoteResponse)
    (quote_request : QuoteRequest) :
    Except JupError QuoteResponse × JupiterSwapApiClient :=
  (self.quote serQuery send text json quote_request, self)

/-- State-passing form of `swap` for the `&self` receiver. -/
def JupiterSwapApiClient.swapCall (self : JupiterSwapApiClient)
    (serJson : SwapRequest → String)
    (send : HttpClient → BuiltRequest → Except String Response)
    (text : String → Except String String)
    (json : String → Except String SwapResponse)
    (swap_request : SwapRequest) :
    Except JupError SwapResponse × JupiterSwapApiClient :=
  (self.swap serJson send text json swap_request, self)

/-- State-passing form of `swap_instructions` for the `&self` receiver. -/
def JupiterSwapApiClient.swapInstructionsCall (self : JupiterSwapApiClient)
    (serJson : SwapRequest → String)
    (send : HttpClient → BuiltRequest → Except String Response)
    (text : String → Except String String)
    (json : String → Except String SwapInstructionsResponseInternal)
    (swap_request : SwapRequest) :
    Except JupError SwapInstructionsResponse × JupiterSwapApiClient :=
  (self.swap_instructions serJson send text json swap_request, self)

/-! ## Theorems -/

/-- Case analysis for the shared pipeline: its result is a decoded value, a
status error, or a decode error — never a transport error. -/
theorem check_pipeline_cases {T : Type}
    (text : String → Except String String)
    (json : String → Except String T) (r : Response) :
    (∃ v, check_status_code_and_deserialize text json r = Except.ok v) ∨
    (∃ c b, check_status_code_and_deserialize text json r =
      Except.error (JupError.status c b)) ∨
    (∃ m, check_status_code_and_deserialize text json r =
      Except.error (JupError.decode m)) := by
  unfold check_status_code_and_deserialize check_is_success
  cases hs : statusIsSuccess r.status with
  | false =>
      simp only [hs, Bool.false_eq_true, if_false]
      exact Or.inr (Or.inl ⟨r.status, text r.body, rfl⟩)
  | true =>
      simp only [hs, if_true]
      cases hj : json r.body with
      | ok v => exact Or.inl ⟨v, rfl⟩
      | error m => exact Or.inr (Or.inr ⟨m, rfl⟩)

/-- C1: for every HTTP response whose status is outside the 2xx range, each
of quote, swap, and swap_instructions returns a Status error carrying the
numeric status code and never a Decode error, no matter how the body
parses: the status check strictly precedes any body interpretation. -/
theorem nonSuccess_status_yields_status_error
    (self : JupiterSwapApiClient)
    (serQ : QuoteRequest → String) (serS : SwapRequest → String)
    (send : HttpClient → BuiltRequest → Except String Response)
    (text : String → Except String String)
    (jsonQ : String → Except String QuoteResponse)
    (jsonS : String → Except String SwapResponse)
    (jsonI : String → Except String SwapInstructionsResponseInternal)
    (r : Response) (qreq : QuoteRequest) (sreq : SwapRequest)
    (hsend : ∀ c b, send c b = Except.ok r)
    (hst : statusIsSuccess r.status = false) :
    self.quote serQ send text jsonQ qreq =
      Except.error (JupError.status r.status (text r.body)) ∧
    self.swap serS send text jsonS sreq =
      Except.error (JupError.status r.status (text r.body)) ∧
    self.swap_instructions serS send text jsonI sreq =
      Except.error (JupError.status r.status (text r.body)) := by
  unfold JupiterSwapApiClient.quote JupiterSwapApiClient.swap
    JupiterSwapApiClient.swap_instructions
  rw [hsend, hsend, hsend]
  unfold check_status_code_and_deserialize check_is_success
  simp [hst, Except.map]

/-- C1 witness: a concrete 500 response with an unreadable body and a body
that would not parse still comes back as a Status error carrying 500. -/
theorem nonSuccess_status_yields_status_error_witness :
    (JupiterSwapApiClient.mk (HttpClient.mk 0) ("b")).quote (fun _ => ("q"))
      (fun _ _ => Except.ok (Response.mk 500 ("oops")))
      (fun _ => Except.error ("read failed"))
      (fun _ => Except.error ("parse failed")) (QuoteRequest.mk ("x")) =
      Except.error (JupError.status 500 (Except.error ("read failed"))) :=
  (nonSuccess_status_yields_status_error
    (JupiterSwapApiClient.mk (HttpClient.mk 0) ("b"))
    (fun _ => ("q")) (fun _ => ("s"))
    (fun _ _ => Except.ok (Response.mk 500 ("oops")))
    (fun _ => Except.error ("read failed"))
    (fun _ => Except.error ("parse failed"))
    (fun _ => Except.error ("parse failed 2"))
    (fun _ => Except.error ("parse failed 3"))
    (Response.mk 500 ("oops")) (QuoteRequest.mk ("x")) (SwapRequest.mk ("y"))
    (fun _ _ => rfl) (by decide)).1

/-- C5: on a non-success status the Status error embeds the best-effort
body-text read result; in particular when the read itself fails, that
secondary failure is carried inside the Status error (represented as an
absent/failed text), never escalated to a different error kind. -/
theorem status_error_swallows_body_read_failure
    (text : String → Except String String) (r : Response)
    (hst : statusIsSuccess r.status = false) :
    check_is_success text r =
      Except.error (JupError.status r.status (text r.body)) ∧
    (∀ m, text r.body = Except.error m →
      check_is_success text r =
        Except.error (JupError.status r.status (Except.error m))) := by
  constructor
  · unfold check_is_success
    simp [hst]
  · intro m hm
    unfold check_is_success
    simp [hst, hm]

/-- C5 witness: a 404 whose body read fails still yields a Status error
carrying 404 with the failed read represented inside it. -/
theorem status_error_swallows_body_read_failure_witness :
    check_is_success (fun _ => Except.error ("connection reset"))
      (Response.mk 404 ("ignored")) =
      Except.error (JupError.status 404 (Except.error ("connection reset"))) :=
  (status_error_swallows_body_read_failure
    (fun _ => Except.error ("connection reset"))
    (Response.mk 404 ("ignored")) (by decide)).2 ("connection reset") rfl

/-- C8: the decode pipeline is a pure function of the captured status and
body bytes: two captured responses that agree on status and body decode to
identical typed results, so re-applying the pipeline to the same captured
response yields the same value. -/
theorem decode_pipeline_deterministic {T : Type}
    (text : String → Except String String)
    (json : String → Except String T) (r1 r2 : Response)
    (hs : r1.status = r2.status) (hb : r1.body = r2.body) :
    check_status_code_and_deserialize text json r1 =
      check_status_code_and_deserialize text json r2 := by
  cases r1
  cases r2
  cases hs
  cases hb
  rfl

/-- C8 witness: the pipeline applied twice to the same captured response
gives the same result. -/
theorem decode_pipeline_deterministic_witness :
    check_status_code_and_deserialize (fun s => Except.ok s)
      (fun s => Except.ok (QuoteResponse.mk s)) (Response.mk 200 ("body")) =
    check_status_code_and_deserialize (fun s => Except.ok s)
      (fun s => Except.ok (QuoteResponse.mk s)) (Response.mk 200 ("body")) :=
  decode_pipeline_deterministic (fun s => Except.ok s)
    (fun s => Except.ok (QuoteResponse.mk s))
    (Response.mk 200 ("body")) (Response.mk 200 ("body")) rfl rfl

/-- C2: every failure of quote, swap, or swap_instructions is one of the
three kinds transport, status, or decode — the result is always a success
value or an error of one of exactly those kinds — and the three kinds are
pairwise distinguishable, so a caller can match on the kind. -/
theorem errors_are_three_distinguishable_kinds
    (self : JupiterSwapApiClient)
    (serQ : QuoteRequest → String) (serS : SwapRequest → String)
    (send : HttpClient → BuiltRequest → Except String Response)
    (text : String → Except String String)
    (jsonQ : String → Except String QuoteResponse)
    (jsonS : String → Except String SwapResponse)
    (jsonI : String → Except String SwapInstructionsResponseInternal)
    (qreq : QuoteRequest) (sreq : SwapRequest) :
    ((∃ v, self.quote serQ send text jsonQ qreq = Except.ok v) ∨
     (∃ m, self.quote serQ send text jsonQ qreq =
        Except.error (JupError.transport m)) ∨
     (∃ c b, self.quote serQ send text jsonQ qreq =
        Except.error (JupError.status c b)) ∨
     (∃ m, self.quote serQ send text jsonQ qreq =
        Except.error (JupError.decode m))) ∧
    ((∃ v, self.swap serS send text jsonS sreq = Except.ok v) ∨
     (∃ m, self.swap serS send text jsonS sreq =
        Except.error (JupError.transport m)) ∨
     (∃ c b, self.swap serS send text jsonS sreq =
        Except.error (JupError.status c b)) ∨
     (∃ m, self.swap serS send text jsonS sreq =
        Except.error (JupError.decode m))) ∧
    ((∃ v, self.swap_instructions serS send text jsonI sreq = Except.ok v) ∨
     (∃ m, self.swap_instructions serS send text jsonI sreq =
        Except.error (JupError.transport m)) ∨
     (∃ c b, self.swap_instructions serS send text jsonI sreq =
        Except.error (JupError.status c b)) ∨
     (∃ m, self.swap_instructions serS send text jsonI sreq =
        Except.error (JupError.decode m))) ∧
    (∀ m c b, JupError.transport m ≠ JupError.status c b) ∧
    (∀ m m2, JupError.transport m ≠ JupError.decode m2) ∧
    (∀ c b m, JupError.status c b ≠ JupError.decode m) := by
  refine ⟨?_, ?_, ?_, ?_, ?_, ?_⟩
  · unfold JupiterSwapApiClient.quote
    cases hsend : send self.client (BuiltRequest.mk Method.get
        (self.base_path ++ "/quote") (some (serQ qreq)) none) with
    | error m => exact Or.inr (Or.inl ⟨m, rfl⟩)
    | ok r =>
        rcases check_pipeline_cases text jsonQ r with ⟨v, hv⟩ | ⟨c, b, hv⟩ | ⟨m, hv⟩
        · exact Or.inl ⟨v, hv⟩
        · exact Or.inr (Or.inr (Or.inl ⟨c, b, hv⟩))
        · exact Or.inr (Or.inr (Or.inr ⟨m, hv⟩))
  · unfold JupiterSwapApiClient.swap
    cases hsend : send self.client (BuiltRequest.mk Method.post
        (self.base_path ++ "/swap") none (some (serS sreq))) with
    | error m => exact Or.inr (Or.inl ⟨m, rfl⟩)
    | ok r =>
        rcases check_pipeline_cases text jsonS r with ⟨v, hv⟩ | ⟨c, b, hv⟩ | ⟨m, hv⟩
        · exact Or.inl ⟨v, hv⟩
        · exact Or.inr (Or.inr (Or.inl ⟨c, b, hv⟩))
        · exact Or.inr (Or.inr (Or.inr ⟨m, hv⟩))
  · unfold JupiterSwapApiClient.swap_instructions
    cases hsend : send self.client (BuiltRequest.mk Method.post
        (self.base_path ++ "/swap-instructions") none (some (serS sreq))) with
    | error m => exact Or.inr (Or.inl ⟨m, rfl⟩)
    | ok r =>
        rcases check_pipeline_cases text jsonI r with ⟨v, hv⟩ | ⟨c, b, hv⟩ | ⟨m, hv⟩
        · exact Or.inl ⟨SwapInstructionsResponseInternal.into v,
            by simp [hv, Except.map]⟩
        · exact Or.inr (Or.inr (Or.inl ⟨c, b, by simp [hv, Except.map]⟩))
        · exact Or.inr (Or.inr (Or.inr ⟨m, by simp [hv, Except.map]⟩))
  · intro m c b h
    exact JupError.noConfusion h
  · intro m m2 h
    exact JupError.noConfusion h
  · intro c b m h
    exact JupError.noConfusion h

/-- C3: swap_instructions consults the transport only at the POST request
to base_path ++ "/swap-instructions" carrying the serialized SwapRequest as
JSON body; on a success status whose body parses as the internal shape it
returns the internal-to-public conversion of the parsed value, while quote
and swap return their decoded values with no post-decode transformation. -/
theorem swap_instructions_post_parse_internal_then_convert
    (self : JupiterSwapApiClient)
    (serQ : QuoteRequest → String) (serS : SwapRequest → String)
    (send : HttpClient → BuiltRequest → Except String Response)
    (text : String → Except String String)
    (jsonQ : String → Except String QuoteResponse)
    (jsonS : String → Except String SwapResponse)
    (jsonI : String → Except String SwapInstructionsResponseInternal)
    (r : Response) (vI : SwapInstructionsResponseInternal)
    (vQ : QuoteResponse) (vS : SwapResponse)
    (qreq : QuoteRequest) (sreq : SwapRequest)
    (hsend : ∀ c b, send c b = Except.ok r)
    (hok : statusIsSuccess r.status = true)
    (hjI : jsonI r.body = Except.ok vI)
    (hjQ : jsonQ r.body = Except.ok vQ)
    (hjS : jsonS r.body = Except.ok vS) :
    self.swap_instructions serS send text jsonI sreq =
      Except.ok (SwapInstructionsResponseInternal.into vI) ∧
    self.quote serQ send text jsonQ qreq = Except.ok vQ ∧
    self.swap serS send text jsonS sreq = Except.ok vS ∧
    (∀ send1 send2 : HttpClient → BuiltRequest → Except String Response,
      send1 self.client (BuiltRequest.mk Method.post
          (self.base_path ++ "/swap-instructions") none (some (serS sreq))) =
        send2 self.client (BuiltRequest.mk Method.post
          (self.base_path ++ "/swap-instructions") none (some (serS sreq))) →
      self.swap_instructions serS send1 text jsonI sreq =
        self.swap_instructions serS send2 text jsonI sreq) := by
  refine ⟨?_, ?_, ?_, ?_⟩
  · unfold JupiterSwapApiClient.swap_instructions
    rw [hsend]
    unfold check_status_code_and_deserialize check_is_success
    simp [hok, hjI, Except.map]
  · unfold JupiterSwapApiClient.quote
    rw [hsend]
    unfold check_status_code_and_deserialize check_is_success
    simp [hok, hjQ]
  · unfold JupiterSwapApiClient.swap
    rw [hsend]
    unfold check_status_code_and_deserialize check_is_success
    simp [hok, hjS]
  · intro send1 send2 h
    unfold JupiterSwapApiClient.swap_instructions
    rw [h]

/-- C3 witness: at a concrete 200 response parsing to a concrete internal
value, swap_instructions returns the converted public value. -/
theorem swap_instructions_post_parse_internal_then_convert_witness :
    (JupiterSwapApiClient.mk (HttpClient.mk 0) ("b")).swap_instructions
      (fun _ => ("s"))
      (fun _ _ => Except.ok (Response.mk 200 ("wire")))
      (fun s => Except.ok s)
      (fun _ => Except.ok (SwapInstructionsResponseInternal.mk [] [("hop")] ("meta")))
      (SwapRequest.mk ("y")) =
      Except.ok (SwapInstructionsResponseInternal.into
        (SwapInstructionsResponseInternal.mk [] [("hop")] ("meta"))) :=
  (swap_instructions_post_parse_internal_then_convert
    (JupiterSwapApiClient.mk (HttpClient.mk 0) ("b"))
    (fun _ => ("q")) (fun _ => ("s"))
    (fun _ _ => Except.ok (Response.mk 200 ("wire")))
    (fun s => Except.ok s)
    (fun _ => Except.ok (QuoteResponse.mk ("qr")))
    (fun _ => Except.ok (SwapResponse.mk ("sr")))
    (fun _ => Except.ok (SwapInstructionsResponseInternal.mk [] [("hop")] ("meta")))
    (Response.mk 200 ("wire"))
    (SwapInstructionsResponseInternal.mk [] [("hop")] ("meta"))
    (QuoteResponse.mk ("qr")) (SwapResponse.mk ("sr"))
    (QuoteRequest.mk ("x")) (SwapRequest.mk ("y"))
    (fun _ _ => rfl) (by decide) rfl rfl rfl).1

/-- C6: quote consults the transport only at the GET request whose URL is
base_path ++ "/quote", carrying the serialized QuoteRequest as query
parameters and no JSON body; whenever the transport returns a response for
that request, quote returns exactly the shared pipeline's decode of it. -/
theorem quote_get_url_query_no_body
    (self : JupiterSwapApiClient)
    (serQ : QuoteRequest → String)
    (text : String → Except String String)
    (jsonQ : String → Except String QuoteResponse)
    (qreq : QuoteRequest) :
    (∀ (send : HttpClient → BuiltRequest → Except String Response)
       (r : Response),
      send self.client (BuiltRequest.mk Method.get
          (self.base_path ++ "/quote") (some (serQ qreq)) none) = Except.ok r →
      self.quote serQ send text jsonQ qreq =
        check_status_code_and_deserialize text jsonQ r) ∧
    (∀ send1 send2 : HttpClient → BuiltRequest → Except String Response,
      send1 self.client (BuiltRequest.mk Method.get
          (self.base_path ++ "/quote") (some (serQ qreq)) none) =
        send2 self.client (BuiltRequest.mk Method.get
          (self.base_path ++ "/quote") (some (serQ qreq)) none) →
      self.quote serQ send1 text jsonQ qreq =
        self.quote serQ send2 text jsonQ qreq) := by
  constructor
  · intro send r h
    unfold JupiterSwapApiClient.quote
    rw [h]
  · intro send1 send2 h
    unfold JupiterSwapApiClient.quote
    rw [h]

/-- C6 witness: at a concrete transport answering the GET on /quote with a
200 response, quote returns the pipeline's decode of that response. -/
theorem quote_get_url_query_no_body_witness :
    (JupiterSwapApiClient.mk (HttpClient.mk 0) ("b")).quote (fun _ => ("q"))
      (fun _ _ => Except.ok (Response.mk 200 ("body")))
      (fun s => Except.ok s)
      (fun s => Except.ok (QuoteResponse.mk s)) (QuoteRequest.mk ("x")) =
      check_status_code_and_deserialize (fun s => Except.ok s)
        (fun s => Except.ok (QuoteResponse.mk s)) (Response.mk 200 ("body")) :=
  (quote_get_url_query_no_body
    (JupiterSwapApiClient.mk (HttpClient.mk 0) ("b"))
    (fun _ => ("q")) (fun s => Except.ok s)
    (fun s => Except.ok (QuoteResponse.mk s)) (QuoteRequest.mk ("x"))).1
    (fun _ _ => Except.ok (Response.mk 200 ("body")))
    (Response.mk 200 ("body")) rfl

/-- C4: the internal-to-public conversion is lossless on route and
instruction data: both the instruction sequence and the route plan are
preserved exactly, and whenever two internal values convert to the same
public value their route and instruction data agree — only the pure
metadata field is dropped. -/
theorem conversion_lossless_on_route_and_instructions
    (i : SwapInstructionsResponseInternal) :
    (SwapInstructionsResponseInternal.into i).instructions = i.instructions ∧
    (SwapInstructionsResponseInternal.into i).route_plan = i.route_plan ∧
    (∀ j : SwapInstructionsResponseInternal,
      SwapInstructionsResponseInternal.into i =
        SwapInstructionsResponseInternal.into j →
      i.instructions = j.instructions ∧ i.route_plan = j.route_plan) := by
  refine ⟨rfl, rfl, ?_⟩
  intro j h
  unfold SwapInstructionsResponseInternal.into at h
  exact ⟨congrArg SwapInstructionsResponse.instructions h,
    congrArg SwapInstructionsResponse.route_plan h⟩

/-- C4 witness: two concrete internal values differing only in metadata
convert to the same public value, and the theorem recovers that their route
and instruction data agree. -/
theorem conversion_lossless_on_route_and_instructions_witness :
    (SwapInstructionsResponseInternal.mk
        [Instruction.mk ("prog") [("acct")] [1, 2]] [("hop")] ("meta1")).instructions =
      (SwapInstructionsResponseInternal.mk
        [Instruction.mk ("prog") [("acct")] [1, 2]] [("hop")] ("meta2")).instructions ∧
    (SwapInstructionsResponseInternal.mk
        [Instruction.mk ("prog") [("acct")] [1, 2]] [("hop")] ("meta1")).route_plan =
      (SwapInstructionsResponseInternal.mk
        [Instruction.mk ("prog") [("acct")] [1, 2]] [("hop")] ("meta2")).route_plan :=
  (conversion_lossless_on_route_and_instructions
    (SwapInstructionsResponseInternal.mk
      [Instruction.mk ("prog") [("acct")] [1, 2]] [("hop")] ("meta1"))).2.2
    (SwapInstructionsResponseInternal.mk
      [Instruction.mk ("prog") [("acct")] [1, 2]] [("hop")] ("meta2")) rfl

/-- C7 counterexample: new stores the base path verbatim with no
validation, so a client instance whose base path ends in a slash exists,
and the empty base path is accepted as well — refuting "for every client
instance the base path has no trailing slash" and "accepting any non-empty
string". -/
theorem new_accepts_trailing_slash_and_empty
    : (JupiterSwapApiClient.new ("https://example.com/v6/")
        (HttpClient.mk 0)).base_path.data.getLast? = some '/' ∧
      (JupiterSwapApiClient.new ("") (HttpClient.mk 0)).base_path = ("") := by
  constructor
  · decide
  · rfl

/-- C7 amended: new stores the given base path verbatim, performing no
validation at all (empty strings and trailing slashes are accepted); every
endpoint URL is string concatenation of the stored base path with the fixed
suffix; the hardcoded default base path has no trailing slash. -/
theorem base_path_verbatim_urls_by_concatenation
    (bp : String) (cl : HttpClient)
    (serQ : QuoteRequest → String) (serS : SwapRequest → String)
    (send : HttpClient → BuiltRequest → Except String Response)
    (text : String → Except String String)
    (jsonQ : String → Except String QuoteResponse)
    (jsonS : String → Except String SwapResponse)
    (jsonI : String → Except String SwapInstructionsResponseInternal)
    (qreq : QuoteRequest) (sreq : SwapRequest) :
    (JupiterSwapApiClient.new bp cl).base_path = bp ∧
    (JupiterSwapApiClient.new bp cl).client = cl ∧
    BASE_PATH.data.getLast? ≠ some '/' ∧
    ((JupiterSwapApiClient.new bp cl).quote serQ send text jsonQ qreq =
      match send cl (BuiltRequest.mk Method.get (bp ++ "/quote")
          (some (serQ qreq)) none) with
      | Except.error m => Except.error (JupError.transport m)
      | Except.ok r => check_status_code_and_deserialize text jsonQ r) ∧
    ((JupiterSwapApiClient.new bp cl).swap serS send text jsonS sreq =
      match send cl (BuiltRequest.mk Method.post (bp ++ "/swap")
          none (some (serS sreq))) with
      | Except.error m => Except.error (JupError.transport m)
      | Except.ok r => check_status_code_and_deserialize text jsonS r) ∧
    ((JupiterSwapApiClient.new bp cl).swap_instructions serS send text jsonI sreq =
      match send cl (BuiltRequest.mk Method.post (bp ++ "/swap-instructions")
          none (some (serS sreq))) with
      | Except.error m => Except.error (JupError.transport m)
      | Except.ok r => (check_status_code_and_deserialize text jsonI r).map
          SwapInstructionsResponseInternal.into) :=
  ⟨rfl, rfl, by decide, rfl, rfl, rfl⟩

/-- C9: the client configuration is immutable under its own operations: in
state-passing form each of the three calls returns the client unchanged —
same base path, same transport handle — whether the call succeeds or fails,
and the returned result is exactly the pure function of that shared
configuration, so one instance can be shared across calls. -/
theorem client_config_immutable_under_calls
    (self : JupiterSwapApiClient)
    (serQ : QuoteRequest → String) (serS : SwapRequest → String)
    (send : HttpClient → BuiltRequest → Except String Response)
    (text : String → Except String String)
    (jsonQ : String → Except String QuoteResponse)
    (jsonS : String → Except String SwapResponse)
    (jsonI : String → Except String SwapInstructionsResponseInternal)
    (qreq : QuoteRequest) (sreq : SwapRequest) :
    (self.quoteCall serQ send text jsonQ qreq).2 = self ∧
    (self.swapCall serS send text jsonS sreq).2 = self ∧
    (self.swapInstructionsCall serS send text jsonI sreq).2 = self ∧
    (self.quoteCall serQ send text jsonQ qreq).2.base_path = self.base_path ∧
    (self.quoteCall serQ send text jsonQ qreq).2.client = self.client ∧
    (self.quoteCall serQ send text jsonQ qreq).1 =
      self.quote serQ send text jsonQ qreq ∧
    (self.swapCall serS send text jsonS sreq).1 =
      self.swap serS send text jsonS sreq ∧
    (self.swapInstructionsCall serS send text jsonI sreq).1 =
      self.swap_instructions serS send text jsonI sreq :=
  ⟨rfl, rfl, rfl, rfl, rfl, rfl, rfl, rfl⟩

/-- C10: totality: for every request value, every transport outcome and
every response — any status code, any body, any text-read or parse outcome
— each of the three operations and the decode pipeline itself evaluates to
a value that is either a success or an error; no input is outside the
functions' domains. -/
theorem operations_total_every_failure_is_err
    (self : JupiterSwapApiClient)
    (serQ : QuoteRequest → String) (serS : SwapRequest → String)
    (send : HttpClient → BuiltRequest → Except String Response)
    (text : String → Except String String)
    (jsonQ : String → Except String QuoteResponse)
    (jsonS : String → Except String SwapResponse)
    (jsonI : String → Except String SwapInstructionsResponseInternal)
    (qreq : QuoteRequest) (sreq : SwapRequest) (r : Response) :
    ((∃ v, self.quote serQ send text jsonQ qreq = Except.ok v) ∨
     (∃ e, self.quote serQ send text jsonQ qreq = Except.error e)) ∧
    ((∃ v, self.swap serS send text jsonS sreq = Except.ok v) ∨
     (∃ e, self.swap serS send text jsonS sreq = Except.error e)) ∧
    ((∃ v, self.swap_instructions serS send text jsonI sreq = Except.ok v) ∨
     (∃ e, self.swap_instructions serS send text jsonI sreq =
        Except.error e)) ∧
    ((∃ v, check_status_code_and_deserialize text jsonI r = Except.ok v) ∨
     (∃ e, check_status_code_and_deserialize text jsonI r =
        Except.error e)) := by
  refine ⟨?_, ?_, ?_, ?_⟩
  · cases h : self.quote serQ send text jsonQ qreq with
    | ok v => exact Or.inl ⟨v, rfl⟩
    | error e => exact Or.inr ⟨e, rfl⟩
  · cases h : self.swap serS send text jsonS sreq with
    | ok v => exact Or.inl ⟨v, rfl⟩
    | error e => exact Or.inr ⟨e, rfl⟩
  · cases h : self.swap_instructions serS send text jsonI sreq with
    | ok v => exact Or.inl ⟨v, rfl⟩
    | error e => exact Or.inr ⟨e, rfl⟩
  · cases h : check_status_code_and_deserialize text jsonI r with
    | ok v => exact Or.inl ⟨v, rfl⟩
    | error e => exact Or.inr ⟨e, rfl⟩

end JupSwap
